import Mathlib

set_option maxRecDepth 2000

/-!
Shallow embedding of `src/devices/chinese_temperature_humidity_sensor.c`
(function `noname_chinese_callback`), the decoder for a noname chinese
outdoor temperature/humidity sensor in rtl_433.

The C function receives a bitbuffer; the repeated-row search and the 42-bit
length check are external collaborators.  We model the decoder from the point
where the 6 extracted bytes `b[0..5]` are available: a `Frame` holds the six
bytes (each a `Nat`, intended `< 256`).

The C function returns an `int`: `1` on success (after emitting the data
record), or one of the negative codes from `decoder.h`.  Two distinct codes
are used on the paths we model: `DECODE_FAIL_SANITY` (all-zero check and both
range checks) and `DECODE_FAIL_MIC` (checksum mismatch).  `decoder.h` is not
part of this repository slice; modelled from the spec: the failure codes are
distinct constant values, represented as the constructors of `RetCode`.

Temperature: the C code computes `float temp_f = temp_raw * 0.1f` (or
`(temp_raw - 4096) * 0.1f` on the negative branch) and compares
`temp_f > 200 || temp_f < -50`.  We represent the temperature exactly in
tenths of a degree (`temp_deci : Int`, so `temp_f = temp_deci * 0.1f`).
For every `temp_deci` in the reachable range `[-2048, 2047]` the IEEE-754
single-precision comparison `temp_f > 200` holds iff `temp_deci > 2000`, and
`temp_f < -50` holds iff `temp_deci < -500`: the products `2000 * 0.1f` and
`-500 * 0.1f` both round to exactly `200.0f` and `-50.0f` (the accumulated
rounding error, below `8e-6`, is far smaller than the `0.1` step and the
float spacing keeps each product on the correct side of the bound), so the
integer comparisons below are a faithful translation of the float ones.

The `uint8_t` checksum accumulator sums nine 4-bit nibbles, at most
`9 * 15 = 135 < 256`, so no modulo-256 wrap ever occurs and plain `Nat`
addition is faithful; `checksum_recv` is at most `60 + 3 = 63 < 256`.
-/

namespace NonameChinese

/-- Return codes of the decode callback, from `decoder.h` (not in this
repository slice).  Modelled from the spec: the codes are distinct values;
`failSanity` stands for `DECODE_FAIL_SANITY`, `failMic` for
`DECODE_FAIL_MIC`. -/
inductive RetCode where
  | failSanity
  | failMic
  deriving DecidableEq, Repr

/-- The six bytes `b[0..5]` extracted from the 42-bit row
(`bitbuffer_extract_bytes`); only the top 2 bits of `b5` are meaningful and
the code masks accordingly. -/
structure Frame where
  b0 : Nat
  b1 : Nat
  b2 : Nat
  b3 : Nat
  b4 : Nat
  b5 : Nat
  deriving DecidableEq, Repr

/-- Predicate: every byte of the frame is an 8-bit value. -/
def Frame.Wf (f : Frame) : Prop :=
  f.b0 < 256 ∧ f.b1 < 256 ∧ f.b2 < 256 ∧ f.b3 < 256 ∧ f.b4 < 256 ∧ f.b5 < 256

instance (f : Frame) : Decidable f.Wf := by
  unfold Frame.Wf; infer_instance

/-- The record emitted through `data_make` on success.  `temp_deci` is the
temperature in tenths of a degree Celsius, so the C `temp_f` equals
`temp_deci * 0.1f`. -/
structure Reading where
  id : Nat
  channel : Nat
  temp_deci : Int
  humidity : Nat
  battery_low : Nat
  deriving DecidableEq, Repr

/-- The all-zero sanity test `!b[0] && !b[1] && !b[2] && !b[3]`. -/
def allZeroPrefix (f : Frame) : Prop :=
  f.b0 = 0 ∧ f.b1 = 0 ∧ f.b2 = 0 ∧ f.b3 = 0

instance (f : Frame) : Decidable (allZeroPrefix f) := by
  unfold allZeroPrefix; infer_instance

/-- The computed checksum: the loop
`for i in 0..3: checksum += (b[i] & 0xf0) >> 4; checksum += b[i] & 0x0f`,
then `checksum += (b[4] & 0xf0) >> 4; checksum &= 0x3f`.
(The `uint8_t` accumulator never exceeds 135, so `Nat` addition is exact.) -/
def checksumOf (f : Frame) : Nat :=
  (((f.b0 &&& 0xf0) >>> 4) + (f.b0 &&& 0x0f) +
   ((f.b1 &&& 0xf0) >>> 4) + (f.b1 &&& 0x0f) +
   ((f.b2 &&& 0xf0) >>> 4) + (f.b2 &&& 0x0f) +
   ((f.b3 &&& 0xf0) >>> 4) + (f.b3 &&& 0x0f) +
   ((f.b4 &&& 0xf0) >>> 4)) &&& 0x3f

/-- The received checksum:
`checksum_recv = ((b[4] & 0x0f) << 2) + ((b[5] & 0xc0) >> 6)`. -/
def checksumRecv (f : Frame) : Nat :=
  ((f.b4 &&& 0x0f) <<< 2) + ((f.b5 &&& 0xc0) >>> 6)

/-- `temp_raw = ((b[1] & 0x0f) << 8) | (b[2] & 0xff)`. -/
def tempRawOf (f : Frame) : Nat :=
  ((f.b1 &&& 0x0f) <<< 8) ||| (f.b2 &&& 0xff)

/-- The temperature in tenths of a degree: `temp_raw * 0.1f`, overwritten by
`(temp_raw - 4096) * 0.1f` when `temp_raw & 0x800` is set. -/
def tempDeciOf (f : Frame) : Int :=
  if tempRawOf f &&& 0x800 ≠ 0 then (tempRawOf f : Int) - 4096
  else (tempRawOf f : Int)

/-- `humidity = b[3] >> 1`. -/
def humidityOf (f : Frame) : Nat := f.b3 >>> 1

/-- `battery_low = (b[4] & 0x10) >> 4`. -/
def batteryLowOf (f : Frame) : Nat := (f.b4 &&& 0x10) >>> 4

/-- `channel = ((b[1] & 0x30) >> 4) + 1`. -/
def channelOf (f : Frame) : Nat := ((f.b1 &&& 0x30) >>> 4) + 1

/-- Stages 3 and 4 of the callback: field extraction followed by the two
range sanity checks (`temp_f > 200 || temp_f < -50`, translated to tenths as
`temp_deci > 2000 ∨ temp_deci < -500`, and `humidity > 100`), then the
construction of the emitted record. -/
def extractFields (f : Frame) : Except RetCode Reading :=
  if tempDeciOf f > 2000 ∨ tempDeciOf f < -500 then
    Except.error RetCode.failSanity
  else if humidityOf f > 100 then
    Except.error RetCode.failSanity
  else
    Except.ok ⟨f.b0, channelOf f, tempDeciOf f, humidityOf f, batteryLowOf f⟩

/-- The decode callback from the point where the six bytes are available:
all-zero sanity check, checksum comparison, then field extraction and range
checks. -/
def decode (f : Frame) : Except RetCode Reading :=
  if allZeroPrefix f then Except.error RetCode.failSanity
  else if checksumOf f ≠ checksumRecv f then Except.error RetCode.failMic
  else extractFields f

/-- The decode callback together with its verbose diagnostics: the C code
prints to `stderr` when `decoder->verbose > 1`.  The returned pair is the
result and the list of diagnostic messages; the messages depend on
`verbose`, the result never does. -/
def decodeWithLog (verbose : Nat) (f : Frame) :
    Except RetCode Reading × List String :=
  if allZeroPrefix f then
    (Except.error RetCode.failSanity,
      if verbose > 1 then ["DECODE_FAIL_SANITY data all 0x00"] else [])
  else
    let log1 := if verbose > 1 then ["hex input", "checksum values"] else []
    if checksumOf f ≠ checksumRecv f then
      (Except.error RetCode.failMic,
        log1 ++ if verbose > 1 then ["checksum mismatch!"] else [])
    else if tempDeciOf f > 2000 ∨ tempDeciOf f < -500 then
      (Except.error RetCode.failSanity,
        log1 ++ if verbose > 1 then ["DECODE_FAIL_SANITY invalid temperature"] else [])
    else if humidityOf f > 100 then
      (Except.error RetCode.failSanity,
        log1 ++ if verbose > 1 then ["DECODE_FAIL_SANITY invalid humidity"] else [])
    else
      (Except.ok ⟨f.b0, channelOf f, tempDeciOf f, humidityOf f, batteryLowOf f⟩,
        log1)

/-! ### Concrete frames used as witnesses and counterexamples -/

/-- The 42-bit example frame from the device documentation,
bytes `0e 20 cd 80 0c 40`, expected `Temp/Hum/Ch : 20.5/64/3`. -/
def exampleFrame : Frame := ⟨0x0e, 0x20, 0xcd, 0x80, 0x0c, 0x40⟩

/-- A frame whose first four bytes are zero. -/
def zeroFrame : Frame := ⟨0, 0, 0, 0, 0, 0⟩

/-- A frame with a valid checksum whose temperature decodes to exactly
`200.0` degrees (`temp_raw = 0x7d0 = 2000`). -/
def boundaryHotFrame : Frame := ⟨0x01, 0x07, 0xd0, 0x00, 0x05, 0x40⟩

/-- A frame with a valid checksum whose temperature decodes to exactly
`-50.0` degrees (`temp_raw = 0xe0c = 3596`, negative branch). -/
def boundaryColdFrame : Frame := ⟨0x01, 0x0e, 0x0c, 0x00, 0x06, 0xc0⟩

/-- A frame with a valid checksum whose temperature decodes to `204.7`
degrees, above the upper sanity bound (`temp_raw = 0x7ff`). -/
def tempOORFrame : Frame := ⟨0x01, 0x07, 0xff, 0x00, 0x09, 0x80⟩

/-- A frame with a valid checksum whose humidity decodes to `127`, above the
sanity bound of `100` (`b3 = 0xff`). -/
def humOORFrame : Frame := ⟨0x01, 0x00, 0x00, 0xff, 0x07, 0xc0⟩

/-- The example frame with its transmitted checksum bits zeroed, so the
computed and received checksums disagree. -/
def mismatchFrame : Frame := ⟨0x0e, 0x20, 0xcd, 0x80, 0x0c, 0x00⟩

/-! ### Arithmetic readings of the bit manipulations

The source manipulates bytes with masks and shifts; the spec states the same
operations with nibbles, quotients and remainders.  These lemmas bridge the
two presentations for 8-bit inputs. -/

theorem and_0f (b : Nat) : b &&& 0x0f = b % 16 :=
  Nat.and_pow_two_sub_one_eq_mod b 4

theorem and_3f (n : Nat) : n &&& 0x3f = n % 64 :=
  Nat.and_pow_two_sub_one_eq_mod n 6

theorem and_ff (b : Nat) : b &&& 0xff = b % 256 :=
  Nat.and_pow_two_sub_one_eq_mod b 8

theorem shr1_div2 (b : Nat) : b >>> 1 = b / 2 := Nat.shiftRight_one b

theorem and_f0_shr (b : Nat) (hb : b < 256) : (b &&& 0xf0) >>> 4 = b / 16 := by
  interval_cases b <;> rfl

theorem and_c0_shr (b : Nat) (hb : b < 256) : (b &&& 0xc0) >>> 6 = b / 64 := by
  interval_cases b <;> rfl

theorem and_30_shr (b : Nat) (hb : b < 256) :
    (b &&& 0x30) >>> 4 = (b >>> 4) &&& 0x3 := by
  interval_cases b <;> rfl

theorem and_30_arith (b : Nat) (hb : b < 256) :
    (b &&& 0x30) >>> 4 = b / 16 % 4 := by
  interval_cases b <;> rfl

theorem and_10_shr (b : Nat) (hb : b < 256) :
    (b &&& 0x10) >>> 4 = (b >>> 4) &&& 0x1 := by
  interval_cases b <;> rfl

theorem and_10_arith (b : Nat) (hb : b < 256) :
    (b &&& 0x10) >>> 4 = b / 16 % 2 := by
  interval_cases b <;> rfl

theorem shl2_and0f (b : Nat) : (b &&& 0x0f) <<< 2 = (b % 16) * 4 := by
  rw [and_0f, Nat.shiftLeft_eq]

theorem lor_shl8 (a b : Nat) (hb : b < 256) : (a <<< 8) ||| b = a * 256 + b := by
  have hb8 : b < 2 ^ 8 := hb
  rw [Nat.shiftLeft_eq, Nat.mul_comm a (2 ^ 8), ← Nat.mul_add_lt_is_or hb8 a]

theorem bit11_iff (r : Nat) (h : r < 4096) : (r &&& 0x800 ≠ 0) ↔ 2048 ≤ r := by
  have h1 : r &&& 2048 = (r.testBit 11).toNat * 2048 := Nat.and_two_pow r 11
  have h2 : r.testBit 11 = decide (r / 2 ^ 11 % 2 = 1) := Nat.testBit_to_div_mod
  cases hb : r.testBit 11 <;> rw [hb] at h1 h2 <;> simp at h2 ⊢ <;>
    rw [show (0x800 : Nat) = 2048 from rfl, h1] <;> simp <;> omega

/-! ### Shape lemmas about `decode` -/

/-- `temp_raw` in arithmetic form: the low nibble of `b1` times 256 plus
`b2` — a 12-bit value. -/
theorem tempRawOf_arith (f : Frame) (h2 : f.b2 < 256) :
    tempRawOf f = (f.b1 % 16) * 256 + f.b2 := by
  unfold tempRawOf
  rw [and_ff, Nat.mod_eq_of_lt h2, and_0f]
  exact lor_shl8 _ _ h2

theorem tempRawOf_lt (f : Frame) (h2 : f.b2 < 256) :
    tempRawOf f < 4096 := by
  rw [tempRawOf_arith f h2]
  have := Nat.mod_lt f.b1 (y := 16) (by omega)
  omega

/-- The field-extraction stage never reports a checksum failure. -/
theorem extractFields_ne_failMic (f : Frame) :
    extractFields f ≠ Except.error RetCode.failMic := by
  unfold extractFields
  split
  · intro h
    injection h with h
    exact RetCode.noConfusion h
  · split
    · intro h
      injection h with h
      exact RetCode.noConfusion h
    · intro h
      exact Except.noConfusion h

/-- Successful decode yields exactly the extracted fields, and both range
checks passed. -/
theorem decode_ok_shape (f : Frame) (r : Reading)
    (h : decode f = Except.ok r) :
    r = ⟨f.b0, channelOf f, tempDeciOf f, humidityOf f, batteryLowOf f⟩ ∧
    tempDeciOf f ≤ 2000 ∧ -500 ≤ tempDeciOf f ∧ humidityOf f ≤ 100 := by
  unfold decode at h
  split at h
  · exact Except.noConfusion h
  · split at h
    · exact Except.noConfusion h
    · unfold extractFields at h
      split at h
      · exact Except.noConfusion h
      · split at h
        · exact Except.noConfusion h
        · rename_i htemp hhum
          injection h with h
          refine ⟨h.symm, ?_, ?_, ?_⟩ <;> omega

/-- The result component of `decodeWithLog` is `decode`. -/
theorem decodeWithLog_fst (v : Nat) (f : Frame) :
    (decodeWithLog v f).1 = decode f := by
  simp only [decodeWithLog, decode, extractFields]
  split_ifs <;> rfl

/-! ### Claims -/

/-- C1: for every 6-byte frame that passes the all-zero check, the computed
checksum is the sum of the eight nibbles of bytes 0..3 plus the high nibble
of byte 4, mod 64; the received checksum is the low nibble of byte 4 shifted
left 2, or-ed with byte 5 shifted right 6; decode fails with the checksum
mismatch code `failMic` iff the two differ, and field extraction with its
range checks is reached exactly when they are equal. -/
theorem c1_checksum_gate (f : Frame) (hw : f.Wf) (hz : ¬ allZeroPrefix f) :
    checksumOf f =
      (f.b0 / 16 + f.b0 % 16 + f.b1 / 16 + f.b1 % 16 + f.b2 / 16 + f.b2 % 16 +
        f.b3 / 16 + f.b3 % 16 + f.b4 / 16) % 64 ∧
    checksumRecv f = (f.b4 % 16) * 4 + f.b5 / 64 ∧
    (decode f = Except.error RetCode.failMic ↔ checksumOf f ≠ checksumRecv f) ∧
    (checksumOf f = checksumRecv f → decode f = extractFields f) := by
  obtain ⟨h0, h1, h2, h3, h4, h5⟩ := hw
  refine ⟨?_, ?_, ?_, ?_⟩
  · unfold checksumOf
    rw [and_f0_shr _ h0, and_f0_shr _ h1, and_f0_shr _ h2, and_f0_shr _ h3,
        and_f0_shr _ h4, and_0f, and_0f, and_0f, and_0f, and_3f]
  · unfold checksumRecv
    rw [shl2_and0f, and_c0_shr _ h5]
  · unfold decode
    rw [if_neg hz]
    by_cases hc : checksumOf f = checksumRecv f
    · rw [if_neg (fun h => h hc)]
      constructor
      · intro h
        exact absurd h (extractFields_ne_failMic f)
      · intro h
        exact absurd hc h
    · rw [if_pos hc]
      simp [hc]
  · intro hc
    unfold decode
    rw [if_neg hz, if_neg (fun h => h hc)]

/-- Witness for C1 at the documented example frame. -/
theorem c1_checksum_gate_witness :
    decode exampleFrame = extractFields exampleFrame :=
  (c1_checksum_gate exampleFrame (by decide) (by decide)).2.2.2 (by decide)

/-- C2 counterexample: two frames with valid checksums whose temperatures
are exactly `200.0` (`temp_deci = 2000`) and exactly `-50.0`
(`temp_deci = -500`, from `temp_raw = 3596` on the negative branch) are NOT
rejected: decode succeeds and emits the boundary values, refuting the
claimed strict exclusive bounds. -/
theorem c2_boundary_counterexample :
    ¬ allZeroPrefix boundaryHotFrame ∧
    checksumOf boundaryHotFrame = checksumRecv boundaryHotFrame ∧
    tempDeciOf boundaryHotFrame = 2000 ∧
    tempRawOf boundaryColdFrame = 3596 ∧
    tempDeciOf boundaryColdFrame = -500 ∧
    decode boundaryHotFrame = Except.ok ⟨0x01, 1, 2000, 0, 0⟩ ∧
    decode boundaryColdFrame = Except.ok ⟨0x01, 1, -500, 0, 0⟩ := by
  refine ⟨by decide, by decide, by decide, by decide, by decide, ?_, ?_⟩ <;> rfl

/-- C2 amended: the temperature bounds are inclusive, not exclusive: a frame
whose checksum passes and whose temperature is exactly `200.0` or exactly
`-50.0` (in tenths, `2000` or `-500`) passes the range check, and is emitted
whenever the humidity check also passes; only temperatures strictly above
`200.0` or strictly below `-50.0` are rejected. -/
theorem c2_boundary_amended (f : Frame) (hz : ¬ allZeroPrefix f)
    (hc : checksumOf f = checksumRecv f)
    (ht : tempDeciOf f = 2000 ∨ tempDeciOf f = -500)
    (hh : humidityOf f ≤ 100) :
    decode f =
      Except.ok ⟨f.b0, channelOf f, tempDeciOf f, humidityOf f, batteryLowOf f⟩ := by
  have htc : ¬ (tempDeciOf f > 2000 ∨ tempDeciOf f < -500) := by
    rcases ht with h | h <;> rw [h] <;> decide
  unfold decode extractFields
  rw [if_neg hz, if_neg (fun h => h hc), if_neg htc,
      if_neg (by omega : ¬ humidityOf f > 100)]

/-- Witness for the amended C2 at the 200.0-degree boundary frame. -/
theorem c2_boundary_amended_witness :
    decode boundaryHotFrame =
      Except.ok ⟨boundaryHotFrame.b0, channelOf boundaryHotFrame,
        tempDeciOf boundaryHotFrame, humidityOf boundaryHotFrame,
        batteryLowOf boundaryHotFrame⟩ :=
  c2_boundary_amended boundaryHotFrame (by decide) (by decide)
    (Or.inl (by decide)) (by decide)

/-- C3 counterexample: the failure classifications are NOT pairwise
distinct: an all-zero-prefix frame, a temperature-out-of-range frame and a
humidity-out-of-range frame all return the very same value
(`Except.error RetCode.failSanity`, the C `DECODE_FAIL_SANITY`), so an
all-zero failure is indistinguishable from an out-of-range failure and the
two out-of-range failures are indistinguishable from each other. -/
theorem c3_same_code_counterexample :
    allZeroPrefix zeroFrame ∧
    checksumOf tempOORFrame = checksumRecv tempOORFrame ∧
    checksumOf humOORFrame = checksumRecv humOORFrame ∧
    tempDeciOf tempOORFrame = 2047 ∧
    humidityOf humOORFrame = 127 ∧
    decode zeroFrame = Except.error RetCode.failSanity ∧
    decode tempOORFrame = Except.error RetCode.failSanity ∧
    decode humOORFrame = Except.error RetCode.failSanity ∧
    decode zeroFrame = decode tempOORFrame ∧
    decode tempOORFrame = decode humOORFrame := by
  refine ⟨by decide, by decide, by decide, by decide, by decide,
    rfl, rfl, rfl, rfl, rfl⟩

/-- C3 amended: the checksum-mismatch failure (`failMic`, the C
`DECODE_FAIL_MIC`) is distinguishable from every other failure, and the
all-zero and out-of-range failures are distinguishable from checksum
failures; but the all-zero, temperature-out-of-range and
humidity-out-of-range paths all return the single code `failSanity` (the C
`DECODE_FAIL_SANITY`) and are not distinguishable from one another. -/
theorem c3_two_way_amended :
    RetCode.failSanity ≠ RetCode.failMic ∧
    (∀ f : Frame, allZeroPrefix f → decode f = Except.error RetCode.failSanity) ∧
    (∀ (f : Frame) (e : RetCode), decode f = Except.error e →
      e = RetCode.failSanity ∨ e = RetCode.failMic) ∧
    (∀ f : Frame, decode f = Except.error RetCode.failMic →
      ¬ allZeroPrefix f ∧ checksumOf f ≠ checksumRecv f) := by
  refine ⟨by decide, ?_, ?_, ?_⟩
  · intro f hf
    unfold decode
    rw [if_pos hf]
  · intro f e h
    unfold decode at h
    split at h
    · injection h with h
      exact Or.inl h.symm
    · split at h
      · injection h with h
        exact Or.inr h.symm
      · unfold extractFields at h
        split at h
        · injection h with h
          exact Or.inl h.symm
        · split at h
          · injection h with h
            exact Or.inl h.symm
          · exact Except.noConfusion h
  · intro f h
    unfold decode at h
    split at h
    · injection h with h
      exact RetCode.noConfusion h
    · split at h
      · rename_i hz hc
        exact ⟨hz, hc⟩
      · exact absurd h (extractFields_ne_failMic f)

/-- Witness for the amended C3 at the all-zero frame. -/
theorem c3_two_way_amended_witness :
    decode zeroFrame = Except.error RetCode.failSanity :=
  c3_two_way_amended.2.1 zeroFrame (by decide)

/-- C4: `temp_raw` is the 12-bit value `((byte1 & 0x0f) << 8) | byte2`; when
bit 11 is set (equivalently `2048 ≤ temp_raw`) the temperature in tenths is
`temp_raw - 4096`, otherwise `temp_raw`; `temp_raw = 0x0cd` yields `205`
tenths (20.5 degrees) and `temp_raw = 0xfa5` yields `-91` tenths (-9.1
degrees), both exact since tenths are represented exactly. -/
theorem c4_temperature_extraction (f : Frame) (_h1 : f.b1 < 256)
    (h2 : f.b2 < 256) :
    tempRawOf f = ((f.b1 &&& 0x0f) <<< 8) ||| f.b2 ∧
    tempRawOf f = (f.b1 % 16) * 256 + f.b2 ∧
    tempRawOf f < 4096 ∧
    tempDeciOf f =
      (if 2048 ≤ tempRawOf f then (tempRawOf f : Int) - 4096
        else (tempRawOf f : Int)) ∧
    (tempRawOf f = 0x0cd → tempDeciOf f = 205) ∧
    (tempRawOf f = 0xfa5 → tempDeciOf f = -91) := by
  have hlt := tempRawOf_lt f h2
  have hb := bit11_iff (tempRawOf f) hlt
  refine ⟨?_, tempRawOf_arith f h2, hlt, ?_, ?_, ?_⟩
  · unfold tempRawOf
    rw [and_ff, Nat.mod_eq_of_lt h2]
  · unfold tempDeciOf
    by_cases hc : 2048 ≤ tempRawOf f
    · rw [if_pos (hb.mpr hc), if_pos hc]
    · rw [if_neg (fun hx => hc (hb.mp hx)), if_neg hc]
  · intro h
    unfold tempDeciOf
    rw [h]
    decide
  · intro h
    unfold tempDeciOf
    rw [h]
    decide

/-- Witness for C4 at the documented example frame, whose raw temperature is
`0x0cd`. -/
theorem c4_temperature_extraction_witness :
    tempDeciOf exampleFrame = 205 :=
  (c4_temperature_extraction exampleFrame (by decide) (by decide)).2.2.2.2.1
    (by decide)

/-- C5: on the frame with bytes `0x0e 0x20 0xcd 0x80 0x0c 0x40`, decode
succeeds and emits id 14, channel 3, temperature 20.5 degrees (205 tenths),
humidity 64 and battery flag 0. -/
theorem c5_example_frame :
    decode exampleFrame = Except.ok ⟨0x0e, 3, 205, 64, 0⟩ := rfl

/-- C6: every frame whose first four bytes are zero is rejected with the
all-zero sanity code, whatever bytes 4 and 5 hold — even when, as on the
witness below, the checksum comparison would have failed, showing the
checksum gate is never consulted on such frames. -/
theorem c6_allzero_short_circuit (b4 b5 : Nat) :
    decode ⟨0, 0, 0, 0, b4, b5⟩ = Except.error RetCode.failSanity ∧
    decode ⟨0, 0, 0, 0, b4, b5⟩ ≠ Except.error RetCode.failMic := by
  have h : decode ⟨0, 0, 0, 0, b4, b5⟩ = Except.error RetCode.failSanity := by
    unfold decode
    rw [if_pos ⟨rfl, rfl, rfl, rfl⟩]
  refine ⟨h, ?_⟩
  rw [h]
  intro hx
  injection hx with hx
  exact RetCode.noConfusion hx

/-- Witness for C6 with bytes 4 and 5 for which the checksums disagree. -/
theorem c6_allzero_short_circuit_witness :
    decode ⟨0, 0, 0, 0, 0x0c, 0x40⟩ = Except.error RetCode.failSanity ∧
    decode ⟨0, 0, 0, 0, 0x0c, 0x40⟩ ≠ Except.error RetCode.failMic :=
  c6_allzero_short_circuit 0x0c 0x40

/-- C7: the humidity is byte 3 shifted right one bit (`byte3 / 2`), hence at
most 127 for any byte; `byte3 = 0x80` gives 64; once the temperature check
has passed, field extraction rejects exactly when the humidity exceeds 100;
and every emitted record has humidity at most 100. -/
theorem c7_humidity (f : Frame) (h3 : f.b3 < 256) :
    humidityOf f = f.b3 / 2 ∧
    humidityOf f ≤ 127 ∧
    (f.b3 = 0x80 → humidityOf f = 64) ∧
    (¬ (tempDeciOf f > 2000 ∨ tempDeciOf f < -500) →
      (extractFields f = Except.error RetCode.failSanity ↔ 100 < humidityOf f)) ∧
    (∀ r : Reading, decode f = Except.ok r → r.humidity ≤ 100) := by
  have hdiv : humidityOf f = f.b3 / 2 := shr1_div2 f.b3
  refine ⟨hdiv, by omega, ?_, ?_, ?_⟩
  · intro h
    unfold humidityOf
    rw [h]
    decide
  · intro ht
    unfold extractFields
    rw [if_neg ht]
    by_cases hh : humidityOf f > 100
    · rw [if_pos hh]
      simp [hh]
    · rw [if_neg hh]
      constructor
      · intro h
        exact Except.noConfusion h
      · intro h
        exact absurd h hh
  · intro r hr
    obtain ⟨hr1, -, -, hh⟩ := decode_ok_shape f r hr
    rw [hr1]
    exact hh

/-- Witness for C7 at the documented example frame, whose third byte is
`0x80`. -/
theorem c7_humidity_witness : humidityOf exampleFrame = 64 :=
  (c7_humidity exampleFrame (by decide)).2.2.1 (by decide)

/-- C8: on every successful decode, the emitted id is byte 0 verbatim, the
channel is `((byte1 >> 4) & 0x3) + 1` — always between 1 and 4 — and the
battery flag is bit 4 of byte 4, `(byte4 >> 4) & 0x1`. -/
theorem c8_id_channel_battery (f : Frame) (h1 : f.b1 < 256) (h4 : f.b4 < 256) :
    channelOf f = ((f.b1 >>> 4) &&& 0x3) + 1 ∧
    1 ≤ channelOf f ∧ channelOf f ≤ 4 ∧
    batteryLowOf f = (f.b4 >>> 4) &&& 0x1 ∧
    (∀ r : Reading, decode f = Except.ok r →
      r.id = f.b0 ∧ r.channel = channelOf f ∧ r.battery_low = batteryLowOf f) := by
  have harith : channelOf f = f.b1 / 16 % 4 + 1 := by
    unfold channelOf
    rw [and_30_arith _ h1]
  refine ⟨?_, by omega, by rw [harith]; omega, ?_, ?_⟩
  · unfold channelOf
    rw [and_30_shr _ h1]
  · unfold batteryLowOf
    rw [and_10_shr _ h4]
  · intro r hr
    rw [(decode_ok_shape f r hr).1]
    exact ⟨rfl, rfl, rfl⟩

/-- Witness for C8 at the documented example frame. -/
theorem c8_id_channel_battery_witness :
    channelOf exampleFrame = ((exampleFrame.b1 >>> 4) &&& 0x3) + 1 :=
  (c8_id_channel_battery exampleFrame (by decide) (by decide)).1

/-- C9: decode is deterministic and stateless — equal frames decode to
identical results — and the verbose-logging level changes only the
diagnostic messages, never the result component. -/
theorem c9_pure_deterministic (v w : Nat) (f g : Frame) (h : f = g) :
    decode f = decode g ∧
    (decodeWithLog v f).1 = decode f ∧
    (decodeWithLog v f).1 = (decodeWithLog w g).1 := by
  subst h
  refine ⟨rfl, decodeWithLog_fst v f, ?_⟩
  rw [decodeWithLog_fst, decodeWithLog_fst]

/-- Witness for C9 at the documented example frame with two different
verbosity levels. -/
theorem c9_pure_deterministic_witness :
    (decodeWithLog 0 exampleFrame).1 = (decodeWithLog 5 exampleFrame).1 :=
  (c9_pure_deterministic 0 5 exampleFrame exampleFrame rfl).2.2

/-- C10: every emitted record has a temperature within the closed interval
from -50.0 to 200.0 degrees (-500 to 2000 tenths) — the range check rejects
only strictly outside values, so the bounds themselves are attainable — and
a humidity within 0..100. -/
theorem c10_output_invariant (f : Frame) (r : Reading)
    (h : decode f = Except.ok r) :
    -500 ≤ r.temp_deci ∧ r.temp_deci ≤ 2000 ∧ r.humidity ≤ 100 := by
  obtain ⟨hr, ht1, ht2, hh⟩ := decode_ok_shape f r h
  rw [hr]
  exact ⟨ht2, ht1, hh⟩

/-- Witness for C10 at the boundary frame whose temperature is exactly
200.0 degrees. -/
theorem c10_output_invariant_witness :
    -500 ≤ (⟨0x01, 1, 2000, 0, 0⟩ : Reading).temp_deci ∧
    (⟨0x01, 1, 2000, 0, 0⟩ : Reading).temp_deci ≤ 2000 ∧
    (⟨0x01, 1, 2000, 0, 0⟩ : Reading).humidity ≤ 100 :=
  c10_output_invariant boundaryHotFrame ⟨0x01, 1, 2000, 0, 0⟩ rfl

end NonameChinese
